import Mathlib

/-!
Verification of `src/Data.py` (Universal Data Analyzer).

The script is a single render pass: it parses one uploaded CSV with
`pd.read_csv`, profiles it (shape, duplicates, dtypes, missing values),
classifies columns into categorical/numeric by dtype, builds a fixed set of
charts, and offers the frame back as a CSV download.

Shallow embedding conventions:
* A cell is `Option Value` (`none` models pandas `NaN`).
* A column carries a name, an inferred dtype and its cells; a frame is the
  list of its columns.
* CSV input is modelled at the field level, as a grid `List (List String)`
  (header row first) — quoting/splitting of the byte stream is outside the
  model.  Numeric literals are modelled as integers; floating point is out
  of scope.  The default pandas NA marker modelled is the empty field, which
  is exactly what `to_csv` emits for `NaN`.
* Rendering calls into the charting libraries are external; they are
  modelled by an environment that may fail at each chart site, mirroring
  the `try/except` layout of the script.
-/

namespace DataAnalyzer

/-- A parsed cell value as produced by `pd.read_csv` dtype inference. -/
inductive Value where
  | intV (i : Int)
  | boolV (b : Bool)
  | strV (s : String)
  deriving DecidableEq

/-- A cell: `none` models `NaN`. -/
abbrev Cell := Option Value

/-- Column dtypes relevant to the script (`np.number`, `bool`, `object`,
`category`); `pd.read_csv` with default options produces only the first
three. -/
inductive Dtype where
  | numeric
  | boolean
  | object
  | category
  deriving DecidableEq

/-- One named column of the frame. -/
structure Col where
  name : String
  dtype : Dtype
  cells : List Cell
  deriving DecidableEq

/-- The in-memory table (`df` in the script). -/
structure DataFrame where
  cols : List Col
  deriving DecidableEq

/-- `df.shape[1]`. -/
def DataFrame.ncols (df : DataFrame) : Nat := df.cols.length

/-- `df.shape[0]`: length of the index, read off the first column. -/
def DataFrame.nrows (df : DataFrame) : Nat :=
  match df.cols with
  | [] => 0
  | c :: _ => c.cells.length

/-! ### Decimal integer literals

`pd.read_csv` recognises decimal integer fields and `df.to_csv` prints them
back; both directions are modelled explicitly so that the round trip is
provable. -/

/-- The character for one decimal digit. -/
def digitChar : Nat → Char
  | 0 => '0'
  | 1 => '1'
  | 2 => '2'
  | 3 => '3'
  | 4 => '4'
  | 5 => '5'
  | 6 => '6'
  | 7 => '7'
  | 8 => '8'
  | 9 => '9'
  | _ => '*'

/-- Numeric value of a digit character. -/
def digitVal (c : Char) : Nat := c.toNat - 48

/-- Little-endian decimal digits, by structural recursion on a fuel bound
(so that it evaluates inside the kernel). -/
def natDigitsAux : Nat → Nat → List Nat
  | 0, _ => []
  | fuel + 1, n => if n = 0 then [] else n % 10 :: natDigitsAux fuel (n / 10)

/-- Little-endian decimal digits of a natural number. -/
def natDigits (n : Nat) : List Nat := natDigitsAux n n

theorem natDigitsAux_eq_digits (fuel n : Nat) (h : n ≤ fuel) :
    natDigitsAux fuel n = Nat.digits 10 n := by
  induction fuel generalizing n with
  | zero =>
    have : n = 0 := Nat.le_zero.mp h
    subst this
    rw [Nat.digits_zero]
    rfl
  | succ m ih =>
    by_cases hn : n = 0
    · subst hn
      rw [Nat.digits_zero]
      rfl
    · rw [natDigitsAux, if_neg hn,
        Nat.digits_def' (b := 10) (by norm_num) (Nat.pos_of_ne_zero hn),
        ih (n / 10) (by omega)]

theorem natDigits_eq_digits (n : Nat) : natDigits n = Nat.digits 10 n :=
  natDigitsAux_eq_digits n n le_rfl

/-- Big-endian decimal representation of a natural number. -/
def reprNatChars (n : Nat) : List Char :=
  match n with
  | 0 => ['0']
  | _ => ((natDigits n).map digitChar).reverse

/-- Parse a nonempty all-digit character list as a natural number
(leading zeros allowed, as in pandas). -/
def parseNatChars (cs : List Char) : Option Nat :=
  if cs = [] then none
  else if cs.all Char.isDigit then
    some (Nat.ofDigits 10 ((cs.map digitVal).reverse))
  else none

/-- Decimal representation of an integer (what `to_csv` prints for an
integer cell). -/
def reprInt (i : Int) : String :=
  if i < 0 then String.mk ('-' :: reprNatChars i.natAbs)
  else String.mk (reprNatChars i.natAbs)

/-- Parse a character list as an optionally negated decimal integer. -/
def parseIntChars : List Char → Option Int
  | [] => none
  | c :: cs =>
    if c = '-' then (parseNatChars cs).map (fun n => -(Int.ofNat n))
    else (parseNatChars (c :: cs)).map Int.ofNat

/-- Parse a field as a decimal integer (what `read_csv` accepts as a
numeric literal in this model). -/
def parseIntStr (s : String) : Option Int := parseIntChars s.data

theorem digitVal_digitChar {d : Nat} (h : d < 10) : digitVal (digitChar d) = d := by
  interval_cases d <;> rfl

theorem isDigit_digitChar {d : Nat} (h : d < 10) : (digitChar d).isDigit = true := by
  interval_cases d <;> rfl

theorem reprNatChars_ne_nil (n : Nat) : reprNatChars n ≠ [] := by
  match n with
  | 0 => simp [reprNatChars]
  | (m + 1) =>
    simp only [reprNatChars, natDigits_eq_digits, ne_eq, List.reverse_eq_nil_iff,
      List.map_eq_nil_iff]
    exact (Nat.digits_ne_nil_iff_ne_zero).mpr (Nat.succ_ne_zero m)

theorem isDigit_of_mem_reprNatChars {n : Nat} {c : Char}
    (h : c ∈ reprNatChars n) : c.isDigit = true := by
  match n with
  | 0 =>
    simp only [reprNatChars, List.mem_singleton] at h
    subst h; rfl
  | (m + 1) =>
    simp only [reprNatChars, natDigits_eq_digits, List.mem_reverse, List.mem_map] at h
    obtain ⟨d, hd, rfl⟩ := h
    exact isDigit_digitChar (Nat.digits_lt_base (by norm_num) hd)

theorem parseNatChars_reprNatChars (n : Nat) :
    parseNatChars (reprNatChars n) = some n := by
  match n with
  | 0 =>
    simp [parseNatChars, reprNatChars, Nat.ofDigits, digitVal]
  | (m + 1) =>
    have hne := reprNatChars_ne_nil (m + 1)
    have hdig : (reprNatChars (m + 1)).all Char.isDigit = true := by
      rw [List.all_eq_true]
      intro c hc
      exact isDigit_of_mem_reprNatChars hc
    rw [parseNatChars, if_neg hne, if_pos hdig]
    have hval :
        (((reprNatChars (m + 1)).map digitVal).reverse) = Nat.digits 10 (m + 1) := by
      simp only [reprNatChars, natDigits_eq_digits]
      rw [List.map_reverse, List.reverse_reverse, List.map_map]
      have hcongr : List.map (digitVal ∘ digitChar) (Nat.digits 10 (m + 1)) =
          List.map id (Nat.digits 10 (m + 1)) :=
        List.map_congr_left (fun d hd => by
          simp only [Function.comp_apply, id_eq]
          exact digitVal_digitChar (Nat.digits_lt_base (by norm_num) hd))
      rw [hcongr, List.map_id]
    rw [hval, Nat.ofDigits_digits]

theorem parseIntStr_reprInt (i : Int) : parseIntStr (reprInt i) = some i := by
  by_cases hi : i < 0
  · rw [reprInt, if_pos hi]
    show parseIntChars ('-' :: reprNatChars i.natAbs) = some i
    rw [parseIntChars, if_pos rfl, parseNatChars_reprNatChars]
    simp only [Option.map_some']
    congr 1
    rw [Int.ofNat_eq_natCast]
    omega
  · rw [reprInt, if_neg hi]
    show parseIntChars (reprNatChars i.natAbs) = some i
    match hr : reprNatChars i.natAbs with
    | [] => exact absurd hr (reprNatChars_ne_nil _)
    | c :: cs =>
      have hcdig : c.isDigit = true := by
        apply isDigit_of_mem_reprNatChars (n := i.natAbs)
        rw [hr]; exact List.mem_cons_self _ _
      have hcne : ¬ c = '-' := by
        intro hc; subst hc; exact absurd hcdig (by decide)
      rw [parseIntChars, if_neg hcne, ← hr, parseNatChars_reprNatChars]
      simp only [Option.map_some']
      congr 1
      rw [Int.ofNat_eq_natCast]
      omega

/-! ### `pd.read_csv` and `df.to_csv` (`src/Data.py` lines 25 and 220)

`read_csv` takes the field grid of the uploaded file (header row first).
Per column it infers a dtype the way pandas does for the fragment relevant
here: a column whose fields are all `True`/`False` literals (and none
missing) is `bool`; a column whose non-missing fields are all integer
literals is numeric (an all-missing column is numeric, like pandas'
all-`NaN` float column); anything else is `object`, keeping the raw
strings.  A row longer than the header is a tokenizing error (pandas pads
short rows with `NaN` but rejects long ones); an empty file is
`EmptyDataError`.  `to_csv(index=False)` prints the header then the cells,
with the empty field for `NaN` — no other transformation. -/

/-- Is the field a pandas boolean literal? -/
def isBoolLit (s : String) : Bool := s == "True" || s == "False"

/-- Is the field missing or an integer literal? -/
def isNumericLit (s : String) : Bool := s == "" || (parseIntStr s).isSome

/-- Dtype inference for one column of raw fields. -/
def inferDtype (fs : List String) : Dtype :=
  if !fs.isEmpty && fs.all isBoolLit then .boolean
  else if fs.all isNumericLit then .numeric
  else .object

/-- Convert one raw field into a cell of a column of the given dtype. -/
def parseCell (d : Dtype) (s : String) : Cell :=
  if s = "" then none
  else
    match d with
    | .boolean => some (.boolV (s == "True"))
    | .numeric => (parseIntStr s).map .intV
    | .object => some (.strV s)
    | .category => some (.strV s)

/-- Build one column from its header name and raw fields. -/
def mkColumn (name : String) (fs : List String) : Col :=
  let d := inferDtype fs
  { name := name, dtype := d, cells := fs.map (parseCell d) }

/-- Columns of the parsed frame: field `j` of each data row (missing
trailing fields read as empty, i.e. `NaN`). -/
def buildCols (header : List String) (rows : List (List String)) : List Col :=
  (List.range header.length).map fun j =>
    mkColumn (header.getD j "") (rows.map fun r => r.getD j "")

/-- `pd.read_csv` on the field grid of the uploaded file. -/
def read_csv (grid : List (List String)) : Except String DataFrame :=
  match grid with
  | [] => .error "EmptyDataError: No columns to parse from file"
  | header :: rows =>
    if rows.all (fun r => decide (r.length ≤ header.length)) then
      .ok ⟨buildCols header rows⟩
    else .error "ParserError: Error tokenizing data"

/-- How `to_csv` prints one cell value. -/
def showValue : Value → String
  | .intV i => reprInt i
  | .boolV b => if b then "True" else "False"
  | .strV s => s

/-- How `to_csv` prints one cell (`NaN` as the empty field). -/
def showCell : Cell → String
  | none => ""
  | some v => showValue v

/-- `df.to_csv(index=False)` as a field grid: header row, then the printed
cells row by row. -/
def to_csv (df : DataFrame) : List (List String) :=
  (df.cols.map Col.name) ::
    (List.range df.nrows).map fun i =>
      df.cols.map fun c => showCell (c.cells.getD i none)

/-! ### Column classification (`src/Data.py` lines 58–59) -/

/-- `df.select_dtypes(include=["object", "category"]).columns.tolist()`. -/
def categoricalCols (df : DataFrame) : List String :=
  (df.cols.filter fun c => c.dtype == .object || c.dtype == .category).map Col.name

/-- `df.select_dtypes(include=np.number).columns.tolist()` (excludes
`bool`, as `np.number` does). -/
def numericCols (df : DataFrame) : List String :=
  (df.cols.filter fun c => c.dtype == .numeric).map Col.name

example :
    read_csv [["a", "b", "c"], ["1", "x", "True"], ["", "yy", "False"]] =
      .ok ⟨[⟨"a", .numeric, [some (.intV 1), none]⟩,
            ⟨"b", .object, [some (.strV "x"), some (.strV "yy")]⟩,
            ⟨"c", .boolean, [some (.boolV true), some (.boolV false)]⟩]⟩ := by
  rfl

example :
    to_csv ⟨[⟨"a", .numeric, [some (.intV 1), none]⟩,
             ⟨"b", .object, [some (.strV "x"), some (.strV "yy")]⟩]⟩ =
      [["a", "b"], ["1", "x"], ["", "yy"]] := by
  rfl

example : read_csv [["a"], ["1", "2"]] = .error "ParserError: Error tokenizing data" := by
  rfl

/-! ### The serialize/parse round trip, cell by cell -/

theorem isBoolLit_iff {s : String} : isBoolLit s = true ↔ s = "True" ∨ s = "False" := by
  simp [isBoolLit]

theorem isNumericLit_iff {s : String} :
    isNumericLit s = true ↔ s = "" ∨ ∃ k, parseIntStr s = some k := by
  simp [isNumericLit, Option.isSome_iff_exists]

theorem reprInt_ne_empty (i : Int) : reprInt i ≠ "" := by
  have h := parseIntStr_reprInt i
  intro he
  rw [he] at h
  exact Option.noConfusion h

theorem isBoolLit_reprInt (i : Int) : isBoolLit (reprInt i) = false := by
  rw [Bool.eq_false_iff]
  intro hb
  have h := parseIntStr_reprInt i
  rcases isBoolLit_iff.mp hb with he | he <;> rw [he] at h
  · have hT : parseIntStr "True" = none := rfl
    rw [hT] at h; exact Option.noConfusion h
  · have hF : parseIntStr "False" = none := rfl
    rw [hF] at h; exact Option.noConfusion h

theorem isNumericLit_reprInt (i : Int) : isNumericLit (reprInt i) = true := by
  rw [isNumericLit_iff]
  exact Or.inr ⟨i, parseIntStr_reprInt i⟩

theorem showCell_parseCell_object (s : String) :
    showCell (parseCell .object s) = s := by
  by_cases h : s = ""
  · subst h; rfl
  · rw [parseCell, if_neg h]; rfl

theorem showCell_parseCell_boolean {s : String} (h : isBoolLit s = true) :
    showCell (parseCell .boolean s) = s := by
  rcases isBoolLit_iff.mp h with rfl | rfl <;> rfl

theorem parseCell_numeric_empty : parseCell .numeric "" = none := rfl

theorem parseCell_numeric_of_parse {s : String} {k : Int}
    (h : parseIntStr s = some k) : parseCell .numeric s = some (.intV k) := by
  have hne : s ≠ "" := by
    intro he; subst he; exact Option.noConfusion h
  rw [parseCell, if_neg hne]
  simp [h]

/-- After printing, a numeric cell reads back as the very same cell. -/
theorem parseCell_showCell_numeric {s : String} (h : isNumericLit s = true) :
    parseCell .numeric (showCell (parseCell .numeric s)) = parseCell .numeric s := by
  rcases isNumericLit_iff.mp h with rfl | ⟨k, hk⟩
  · rfl
  · rw [parseCell_numeric_of_parse hk]
    show parseCell .numeric (reprInt k) = some (.intV k)
    exact parseCell_numeric_of_parse (parseIntStr_reprInt k)

theorem isBoolLit_showCell_numeric {s : String} (h : isNumericLit s = true) :
    isBoolLit (showCell (parseCell .numeric s)) = false := by
  rcases isNumericLit_iff.mp h with rfl | ⟨k, hk⟩
  · rfl
  · rw [parseCell_numeric_of_parse hk]
    exact isBoolLit_reprInt k

theorem isNumericLit_showCell_numeric {s : String} (h : isNumericLit s = true) :
    isNumericLit (showCell (parseCell .numeric s)) = true := by
  rcases isNumericLit_iff.mp h with rfl | ⟨k, hk⟩
  · rfl
  · rw [parseCell_numeric_of_parse hk]
    exact isNumericLit_reprInt k

/-- Printing the parsed cells of a column and re-inferring gives back the
same column. -/
theorem mkColumn_roundtrip (name : String) (fs : List String) :
    mkColumn name (fs.map fun s => showCell (parseCell (inferDtype fs) s)) =
      mkColumn name fs := by
  by_cases hb : (!fs.isEmpty && fs.all isBoolLit) = true
  · have hd : inferDtype fs = .boolean := by rw [inferDtype, if_pos hb]
    have hself : (fs.map fun s => showCell (parseCell (inferDtype fs) s)) = fs := by
      have := List.map_congr_left (l := fs)
        (f := fun s => showCell (parseCell (inferDtype fs) s)) (g := id)
        (fun s hs => by
          rw [hd, id_eq]
          exact showCell_parseCell_boolean
            (List.all_eq_true.mp (Bool.and_elim_right hb) s hs))
      rw [this, List.map_id]
    rw [hself]
  · by_cases hn : fs.all isNumericLit = true
    · have hd : inferDtype fs = .numeric := by rw [inferDtype, if_neg hb, if_pos hn]
      set g : String → String := fun s => showCell (parseCell .numeric s) with hg
      have hmap : (fs.map fun s => showCell (parseCell (inferDtype fs) s)) = fs.map g := by
        rw [hd]
      rw [hmap]
      have hboolall : ∀ s ∈ fs.map g, isBoolLit s = false := by
        intro s hs
        rw [List.mem_map] at hs
        obtain ⟨t, ht, rfl⟩ := hs
        exact isBoolLit_showCell_numeric (List.all_eq_true.mp hn t ht)
      have hb' : (!(fs.map g).isEmpty && (fs.map g).all isBoolLit) = false := by
        match fs with
        | [] => rfl
        | t :: ts =>
          have : isBoolLit (g t) = false := hboolall (g t) (List.mem_map_of_mem g (List.mem_cons_self t ts))
          simp [List.all_cons, this]
      have hn' : (fs.map g).all isNumericLit = true := by
        rw [List.all_eq_true]
        intro s hs
        rw [List.mem_map] at hs
        obtain ⟨t, ht, rfl⟩ := hs
        exact isNumericLit_showCell_numeric (List.all_eq_true.mp hn t ht)
      have hd' : inferDtype (fs.map g) = .numeric := by
        rw [inferDtype, if_neg (by rw [hb']; exact Bool.false_ne_true), if_pos hn']
      rw [mkColumn, mkColumn]
      simp only [hd, hd']
      congr 1
      rw [List.map_map]
      exact List.map_congr_left (fun s hs => by
        simp only [Function.comp_apply, hg]
        exact parseCell_showCell_numeric (List.all_eq_true.mp hn s hs))
    · have hd : inferDtype fs = .object := by rw [inferDtype, if_neg hb, if_neg hn]
      have hself : (fs.map fun s => showCell (parseCell (inferDtype fs) s)) = fs := by
        have := List.map_congr_left (l := fs)
          (f := fun s => showCell (parseCell (inferDtype fs) s)) (g := id)
          (fun s _ => by rw [hd, id_eq]; exact showCell_parseCell_object s)
        rw [this, List.map_id]
      rw [hself]

/-! ### The round trip on whole frames -/

theorem range_map_getD {α β : Type} (l : List α) (d : α) (g : α → β) :
    (List.range l.length).map (fun i => g (l.getD i d)) = l.map g := by
  apply List.ext_getElem
  · simp
  · intro i h1 h2
    rw [List.getElem_map, List.getElem_map, List.getElem_range]
    congr 1
    exact List.getD_eq_getElem l d (by simpa using h2)

theorem range_map_getD_self {α : Type} (l : List α) (d : α) :
    (List.range l.length).map (fun i => l.getD i d) = l := by
  have h := range_map_getD l d id
  rwa [List.map_id] at h

theorem length_buildCols (header : List String) (rows : List (List String)) :
    (buildCols header rows).length = header.length := by
  simp [buildCols]

theorem getElem_buildCols (header : List String) (rows : List (List String))
    (j : Nat) (hj : j < (buildCols header rows).length) :
    (buildCols header rows)[j] =
      mkColumn (header.getD j "") (rows.map fun r => r.getD j "") := by
  simp [buildCols]

theorem cells_mkColumn (name : String) (fs : List String) :
    (mkColumn name fs).cells = fs.map (parseCell (inferDtype fs)) := rfl

theorem length_cells_mkColumn (name : String) (fs : List String) :
    (mkColumn name fs).cells.length = fs.length := by
  rw [cells_mkColumn, List.length_map]

theorem names_buildCols (header : List String) (rows : List (List String)) :
    (buildCols header rows).map Col.name = header := by
  rw [buildCols, List.map_map]
  have h : (Col.name ∘ fun j => mkColumn (header.getD j "") (rows.map fun r => r.getD j "")) =
      fun j => header.getD j "" := rfl
  rw [h]
  exact range_map_getD_self header ""

theorem nrows_buildCols (header : List String) (rows : List (List String))
    (hne : header ≠ []) :
    DataFrame.nrows ⟨buildCols header rows⟩ = rows.length := by
  match header with
  | [] => exact absurd rfl hne
  | h0 :: t =>
    show DataFrame.nrows ⟨buildCols (h0 :: t) rows⟩ = rows.length
    rw [buildCols]
    have hlen : (h0 :: t).length = t.length + 1 := rfl
    rw [hlen, List.range_succ_eq_map, List.map_cons]
    show (mkColumn ((h0 :: t).getD 0 "") (rows.map fun r => r.getD 0 "")).cells.length =
      rows.length
    rw [length_cells_mkColumn, List.length_map]

theorem buildCols_congr (header : List String) (rows1 rows2 : List (List String))
    (h : ∀ j ∈ List.range header.length,
      mkColumn (header.getD j "") (rows1.map fun r => r.getD j "") =
        mkColumn (header.getD j "") (rows2.map fun r => r.getD j "")) :
    buildCols header rows1 = buildCols header rows2 := by
  rw [buildCols, buildCols]
  exact List.map_congr_left h

set_option maxHeartbeats 1600000 in
/-- **C1.** For every uploaded table (i.e. every table in the image of
`read_csv`), serializing it with `to_csv(index=False)` and re-parsing the
resulting grid yields the very same table: the export applies no
transformation, and dtype inference is stable on printed output
(`src/Data.py` lines 25, 220-226). -/
theorem csv_roundtrip (grid : List (List String)) (df : DataFrame)
    (h : read_csv grid = .ok df) : read_csv (to_csv df) = .ok df := by
  match grid with
  | [] => exact absurd h (by rw [read_csv]; exact fun hc => Except.noConfusion hc)
  | header :: rows =>
    rw [read_csv] at h
    by_cases hall : rows.all (fun r => decide (r.length ≤ header.length)) = true
    · rw [if_pos hall] at h
      injection h with h
      subst h
      match header with
      | [] => rfl
      | h0 :: t =>
        have hne : (h0 :: t) ≠ ([] : List String) := List.cons_ne_nil h0 t
        have hnrows : DataFrame.nrows ⟨buildCols (h0 :: t) rows⟩ = rows.length :=
          nrows_buildCols (h0 :: t) rows hne
        have hto : to_csv ⟨buildCols (h0 :: t) rows⟩ = (h0 :: t) ::
            (List.range rows.length).map
              (fun i => (buildCols (h0 :: t) rows).map
                fun c => showCell (c.cells.getD i none)) := by
          rw [to_csv]
          show ((buildCols (h0 :: t) rows).map Col.name) :: _ = _
          rw [names_buildCols, hnrows]
        rw [hto, read_csv]
        have hlenrow : ∀ r ∈ (List.range rows.length).map
            (fun i => (buildCols (h0 :: t) rows).map
              fun c => showCell (c.cells.getD i none)),
            r.length = (h0 :: t).length := by
          intro r hr
          rw [List.mem_map] at hr
          obtain ⟨i, _, rfl⟩ := hr
          rw [List.length_map, length_buildCols]
        rw [if_pos (by
          rw [List.all_eq_true]
          intro r hr
          exact decide_eq_true ((hlenrow r hr).le))]
        have hcols : buildCols (h0 :: t)
            ((List.range rows.length).map
              (fun i => (buildCols (h0 :: t) rows).map
                fun c => showCell (c.cells.getD i none))) =
            buildCols (h0 :: t) rows := by
          apply buildCols_congr
          intro j hj
          rw [List.mem_range] at hj
          have hfields :
              (((List.range rows.length).map
                (fun i => (buildCols (h0 :: t) rows).map
                  fun c => showCell (c.cells.getD i none))).map
                    fun r => r.getD j "") =
              ((rows.map fun r => r.getD j "").map
                fun s => showCell
                  (parseCell (inferDtype (rows.map fun r => r.getD j "")) s)) := by
            apply List.ext_getElem
            · rw [List.length_map, List.length_map, List.length_range,
                List.length_map, List.length_map]
            · intro i hi1 hi2
              have him : i < rows.length := by
                rw [List.length_map, List.length_map, List.length_range] at hi1
                exact hi1
              simp only [List.getElem_map, List.getElem_range]
              have hjC : j < ((buildCols (h0 :: t) rows).map
                  (fun c => showCell (c.cells.getD i none))).length := by
                rw [List.length_map, length_buildCols]
                exact hj
              rw [List.getD_eq_getElem _ "" hjC, List.getElem_map,
                getElem_buildCols (h0 :: t) rows j
                  (by rw [length_buildCols]; exact hj),
                cells_mkColumn]
              have hilt : i < ((rows.map fun r => r.getD j "").map
                  (parseCell (inferDtype (rows.map fun r => r.getD j "")))).length := by
                rw [List.length_map, List.length_map]
                exact him
              rw [List.getD_eq_getElem _ none hilt, List.getElem_map, List.getElem_map]
          rw [hfields]
          exact mkColumn_roundtrip ((h0 :: t).getD j "") (rows.map fun r => r.getD j "")
        rw [hcols]
    · rw [if_neg hall] at h
      exact absurd h (fun hc => Except.noConfusion hc)

/-- Closed witness for `csv_roundtrip` at a concrete upload with a numeric,
an object and a boolean column, missing values included. -/
theorem csv_roundtrip_witness :
    read_csv [["a", "b", "c"], ["-12", "x", "True"], ["", "07", "False"]] =
        .ok ⟨[⟨"a", .numeric, [some (.intV (-12)), none]⟩,
              ⟨"b", .object, [some (.strV "x"), some (.strV "07")]⟩,
              ⟨"c", .boolean, [some (.boolV true), some (.boolV false)]⟩]⟩ ∧
      read_csv (to_csv ⟨[⟨"a", .numeric, [some (.intV (-12)), none]⟩,
              ⟨"b", .object, [some (.strV "x"), some (.strV "07")]⟩,
              ⟨"c", .boolean, [some (.boolV true), some (.boolV false)]⟩]⟩) =
        .ok ⟨[⟨"a", .numeric, [some (.intV (-12)), none]⟩,
              ⟨"b", .object, [some (.strV "x"), some (.strV "07")]⟩,
              ⟨"c", .boolean, [some (.boolV true), some (.boolV false)]⟩]⟩ :=
  ⟨rfl, csv_roundtrip [["a", "b", "c"], ["-12", "x", "True"], ["", "07", "False"]] _ rfl⟩

/-! ### Column classification as a partition (`src/Data.py` lines 58-59) -/

/-- An upload with a boolean column: `"a"` gets dtype `bool`, which
`select_dtypes(["object", "category"])` and `select_dtypes(np.number)`
both exclude. -/
def boolGrid : List (List String) := [["a", "b"], ["True", "1"]]

/-- The frame parsed from `boolGrid`. -/
def dfBool : DataFrame :=
  ⟨[⟨"a", .boolean, [some (.boolV true)]⟩, ⟨"b", .numeric, [some (.intV 1)]⟩]⟩

/-- **C2, counterexample.** The claimed disjoint cover fails on the code: a
CSV column holding `True`/`False` gets dtype `bool`, which lands in neither
`categorical_cols` nor `numeric_cols`, so the union does not cover all
columns. -/
theorem classification_cover_counterexample :
    read_csv boolGrid = .ok dfBool ∧
      ¬ ((∀ n ∈ categoricalCols dfBool, n ∉ numericCols dfBool) ∧
         (∀ c ∈ dfBool.cols,
            c.name ∈ categoricalCols dfBool ∨ c.name ∈ numericCols dfBool)) :=
  ⟨rfl, by decide⟩

/-- **C2, amended.** For a frame with pairwise distinct column names (pandas
mangles duplicate headers on load, which the grid model omits), the
categorical and numeric column lists are disjoint, and every individual
column whose dtype is not boolean — also in a frame that does contain
boolean columns — lands in one of the two lists; boolean dtype itself is
excluded by both `np.number` and `["object", "category"]`. -/
theorem classification_partition (df : DataFrame)
    (hnd : (df.cols.map Col.name).Nodup) :
    (∀ n ∈ categoricalCols df, n ∉ numericCols df) ∧
      (∀ c ∈ df.cols, c.dtype ≠ .boolean →
        c.name ∈ categoricalCols df ∨ c.name ∈ numericCols df) := by
  constructor
  · intro n hcat hnum
    rw [categoricalCols, List.mem_map] at hcat
    obtain ⟨c1, hc1f, hc1n⟩ := hcat
    rw [List.mem_filter] at hc1f
    rw [numericCols, List.mem_map] at hnum
    obtain ⟨c2, hc2f, hc2n⟩ := hnum
    rw [List.mem_filter] at hc2f
    have hceq : c1 = c2 :=
      List.inj_on_of_nodup_map hnd hc1f.1 hc2f.1 (hc1n.trans hc2n.symm)
    have h1 := hc1f.2
    have h2 := hc2f.2
    rw [hceq] at h1
    rw [beq_iff_eq] at h2
    rw [h2] at h1
    exact Bool.noConfusion h1
  · intro c hc hnb
    match hdt : c.dtype with
    | .numeric =>
      right
      rw [numericCols, List.mem_map]
      exact ⟨c, List.mem_filter.mpr ⟨hc, by rw [hdt]; rfl⟩, rfl⟩
    | .boolean => exact absurd hdt hnb
    | .object =>
      left
      rw [categoricalCols, List.mem_map]
      exact ⟨c, List.mem_filter.mpr ⟨hc, by rw [hdt]; rfl⟩, rfl⟩
    | .category =>
      left
      rw [categoricalCols, List.mem_map]
      exact ⟨c, List.mem_filter.mpr ⟨hc, by rw [hdt]; rfl⟩, rfl⟩

/-- A frame with one object and one numeric column. -/
def dfMixed : DataFrame :=
  ⟨[⟨"c", .object, [some (.strV "u")]⟩, ⟨"n", .numeric, [some (.intV 3)]⟩]⟩

/-- Closed witness for `classification_partition`, at the mixed frame
`dfBool`: its boolean column is present, and its numeric column is still
covered. -/
theorem classification_partition_witness :
    (dfBool.cols.map Col.name).Nodup ∧
      ((∀ n ∈ categoricalCols dfBool, n ∉ numericCols dfBool) ∧
        (∀ c ∈ dfBool.cols, c.dtype ≠ .boolean →
          c.name ∈ categoricalCols dfBool ∨ c.name ∈ numericCols dfBool)) :=
  ⟨by decide, classification_partition dfBool (by decide)⟩

/-! ### Missing-value analysis (`src/Data.py` lines 72-76) -/

/-- `.round(2)`: round to two decimal places. -/
def round2dp (q : Rat) : Rat := ((round (q * 100) : Int) : Rat) / 100

/-- `df.isnull().sum()` for one column. -/
def nullCount (cells : List Cell) : Nat := (cells.filter fun c => c.isNone).length

/-- `df.isnull().mean()` for one column: mean of the 0/1 null indicator. -/
def isnullMean (cells : List Cell) : Rat :=
  ((cells.map fun c => if c.isNone then (1 : Rat) else 0).sum) / (cells.length : Rat)

/-- The `missing_df` table: per column its name, `isnull().sum()` and
`(isnull().mean() * 100).round(2)`. -/
def missingTable (df : DataFrame) : List (String × Nat × Rat) :=
  df.cols.map fun c => (c.name, nullCount c.cells, round2dp (isnullMean c.cells * 100))

theorem sum_null_indicator (cells : List Cell) :
    (cells.map fun c => if c.isNone then (1 : Rat) else 0).sum = (nullCount cells : Rat) := by
  induction cells with
  | nil => simp [nullCount]
  | cons c cs ih =>
    rw [List.map_cons, List.sum_cons, ih]
    cases hc : c.isNone
    · simp [nullCount, List.filter_cons, hc]
    · simp only [nullCount, List.filter_cons, hc, if_true, List.length_cons, hc]
      push_cast
      ring

/-- **C4.** The missing percentage reported for a column equals
(null count / row count) × 100, rounded to two decimal places
(`src/Data.py` lines 72-76). -/
theorem missing_pct_correct (df : DataFrame) (c : Col) (hc : c ∈ df.cols)
    (hlen : c.cells.length = df.nrows) (hpos : 0 < df.nrows) :
    (c.name, nullCount c.cells,
        round2dp ((nullCount c.cells : Rat) / (df.nrows : Rat) * 100)) ∈
      missingTable df := by
  rw [missingTable]
  apply List.mem_map.mpr
  refine ⟨c, hc, ?_⟩
  have h1 : isnullMean c.cells = (nullCount c.cells : Rat) / (df.nrows : Rat) := by
    rw [isnullMean, sum_null_indicator, hlen]
  rw [h1]

/-- A frame with one null out of two rows (missing percentage 50). -/
def dfMiss : DataFrame := ⟨[⟨"m", .numeric, [some (.intV 1), none]⟩]⟩

/-- The single column of `dfMiss`. -/
def colMiss : Col := ⟨"m", .numeric, [some (.intV 1), none]⟩

/-- Closed witness for `missing_pct_correct` on `dfMiss`. -/
theorem missing_pct_witness :
    colMiss ∈ dfMiss.cols ∧ colMiss.cells.length = dfMiss.nrows ∧ 0 < dfMiss.nrows ∧
      (colMiss.name, nullCount colMiss.cells,
          round2dp ((nullCount colMiss.cells : Rat) / (dfMiss.nrows : Rat) * 100)) ∈
        missingTable dfMiss :=
  ⟨by decide, rfl, by decide,
    missing_pct_correct dfMiss colMiss (by decide) rfl (by decide)⟩

/-! ### Duplicate rows (`src/Data.py` line 42) -/

/-- Row `i` of the frame (`NaN`-padded, matching the frame invariant that
all columns share the index length). -/
def rowAt (df : DataFrame) (i : Nat) : List Cell := df.cols.map fun c => c.cells.getD i none

/-- All rows of the frame, in order. -/
def rowsOf (df : DataFrame) : List (List Cell) := (List.range df.nrows).map (rowAt df)

/-- `df.duplicated()` with the default `keep="first"`: flag each row that
equals an earlier row. -/
def dupFlags : List (List Cell) → List (List Cell) → List Bool
  | _, [] => []
  | seen, r :: rs => (decide (r ∈ seen)) :: dupFlags (r :: seen) rs

/-- `df.duplicated().sum()`. -/
def dupRowCount (df : DataFrame) : Nat :=
  ((dupFlags [] (rowsOf df)).map fun b => if b then 1 else 0).sum

theorem dupFlags_sum (l seen : List (List Cell)) :
    ((dupFlags seen l).map fun b => if b then 1 else 0).sum +
      (l.toFinset \ seen.toFinset).card = l.length := by
  induction l generalizing seen with
  | nil => simp [dupFlags]
  | cons r rs ih =>
    rw [dupFlags, List.map_cons, List.sum_cons, List.toFinset_cons, List.length_cons]
    by_cases hr : r ∈ seen
    · rw [decide_eq_true hr, if_pos rfl]
      have hins : insert r rs.toFinset \ seen.toFinset = rs.toFinset \ seen.toFinset :=
        Finset.insert_sdiff_of_mem _ (List.mem_toFinset.mpr hr)
      have hseen : (r :: seen).toFinset = seen.toFinset := by
        rw [List.toFinset_cons]
        exact Finset.insert_eq_self.mpr (List.mem_toFinset.mpr hr)
      have h := ih (r :: seen)
      rw [hseen] at h
      rw [hins]
      omega
    · rw [decide_eq_false hr, if_neg Bool.false_ne_true]
      have h := ih (r :: seen)
      rw [List.toFinset_cons] at h
      have hset : insert r rs.toFinset \ seen.toFinset =
          insert r (rs.toFinset \ seen.toFinset) :=
        Finset.insert_sdiff_of_not_mem _ (fun hm => hr (List.mem_toFinset.mp hm))
      have herase : rs.toFinset \ insert r seen.toFinset =
          (rs.toFinset \ seen.toFinset).erase r := by
        rw [Finset.sdiff_insert]
      have hcardins : (insert r (rs.toFinset \ seen.toFinset)).card =
          ((rs.toFinset \ seen.toFinset).erase r).card + 1 := by
        have hsame : insert r (rs.toFinset \ seen.toFinset) =
            insert r ((rs.toFinset \ seen.toFinset).erase r) := by
          ext x
          simp only [Finset.mem_insert, Finset.mem_erase]
          constructor
          · intro hx
            rcases hx with hx | hx
            · exact Or.inl hx
            · by_cases hxr : x = r
              · exact Or.inl hxr
              · exact Or.inr ⟨hxr, hx⟩
          · intro hx
            rcases hx with hx | hx
            · exact Or.inl hx
            · exact Or.inr hx.2
        rw [hsame, Finset.card_insert_of_not_mem (Finset.not_mem_erase r _)]
      rw [hset, hcardins, ← herase]
      omega

/-- **C10.** `df.duplicated().sum()` counts every repetition of a row after
its first occurrence: it equals the total number of rows minus the number
of distinct rows (`src/Data.py` line 42). -/
theorem duplicate_row_count (df : DataFrame) :
    dupRowCount df = df.nrows - ((rowsOf df).dedup).length := by
  have h := dupFlags_sum (rowsOf df) []
  rw [List.toFinset_nil, Finset.sdiff_empty, List.card_toFinset] at h
  have hlen : (rowsOf df).length = df.nrows := by
    rw [rowsOf, List.length_map, List.length_range]
  rw [dupRowCount]
  omega

/-! ### The render pass (`src/Data.py` lines 24-229)

The page body is a straight-line sequence of sections.  Everything the
script computes from `df` is pure; the calls into the charting libraries
are external and may raise, so they are modelled by an environment mapping
each chart site to `ok` or an exception message.  Sections wrapped in
`try/except` in the source convert a failure into an inline error output;
the other sections let it propagate, which aborts the whole render pass
(the Streamlit behaviour for an uncaught exception). -/

/-- The external charting/rendering calls, by chart site. -/
structure RenderEnv where
  render : String → Except String Unit

/-- The state of the selectbox widgets (an index per widget key). -/
structure Selections where
  numCol : Nat
  catCol : Nat
  barX : Nat
  barY : Nat
  barType : Nat
  pieCat : Nat
  pieNum : Nat
  pieType : Nat
  countCat : Nat
  outCol : Nat

/-- What a selectbox returns for a given option list and stored index. -/
def choose (opts : List String) (i : Nat) : String := opts.getD i ""

/-- One visible element of the rendered page. -/
inductive Output where
  | success (m : String)
  | pageHeader (t : String)
  | view (name : String)
  | metric (label : String) (value : Nat)
  | colLists (cats nums : List String)
  | missingView (t : List (String × Nat × Rat))
  | info (m : String)
  | warning (m : String)
  | errorMsg (m : String)
  | chart (site : String) (colsUsed : List String)
  | download (fname mime : String) (content : List (List String))
  deriving DecidableEq

/-- Catch wrapper for a `try/except` block: a failure becomes an inline
`st.error` output instead of propagating (`src/Data.py` lines 140-141,
171-172, 190-191). -/
def guarded (body : Except String (List Output)) (pre : String) : List Output :=
  match body with
  | .ok os => os
  | .error e => [.errorMsg (pre ++ e)]

/-- Dynamic Bar Chart body (`src/Data.py` lines 112-139): requires both a
categorical and a numeric column, else warns. -/
def dynamicBarBody (env : RenderEnv) (sel : Selections) (cats nums : List String) :
    Except String (List Output) :=
  if 0 < cats.length ∧ 0 < nums.length then do
    env.render "dynamic_bar"
    pure [.chart "dynamic_bar" [choose cats sel.barX, choose nums sel.barY]]
  else
    pure [.warning "Need both categorical and numeric columns for bar chart"]

/-- Dynamic Pie Chart body (`src/Data.py` lines 148-170). -/
def dynamicPieBody (env : RenderEnv) (sel : Selections) (cats nums : List String) :
    Except String (List Output) :=
  if 0 < cats.length ∧ 0 < nums.length then do
    env.render "dynamic_pie"
    pure [.chart "dynamic_pie" [choose cats sel.pieCat, choose nums sel.pieNum]]
  else
    pure [.warning "Need both categorical and numeric columns for pie chart"]

/-- Category Distribution Pie body (`src/Data.py` lines 179-189). -/
def countPieBody (env : RenderEnv) (sel : Selections) (cats : List String) :
    Except String (List Output) :=
  if 0 < cats.length then do
    env.render "count_pie"
    pure [.chart "count_pie" [choose cats sel.countCat]]
  else
    pure [.warning "No categorical columns available for distribution chart"]

/-- Histogram (`src/Data.py` lines 93-96): shown for a selected numeric
column, no `try/except`. -/
def histSection (env : RenderEnv) (sel : Selections) (nums : List String) :
    Except String (List Output) :=
  if nums.isEmpty then pure []
  else do
    env.render "histogram"
    pure [.chart "histogram" [choose nums sel.numCol]]

/-- Value-count bar (`src/Data.py` lines 98-105): shown for a selected
categorical column, no `try/except`. -/
def vcSection (env : RenderEnv) (sel : Selections) (cats : List String) :
    Except String (List Output) :=
  if cats.isEmpty then pure []
  else do
    env.render "value_counts_bar"
    pure [.chart "value_counts_bar" [choose cats sel.catCol]]

/-- Correlation heatmap (`src/Data.py` lines 198-204): only with more than
one numeric column, else an info message; no `try/except`. -/
def heatSection (env : RenderEnv) (nums : List String) :
    Except String (List Output) :=
  if 1 < nums.length then do
    env.render "correlation_heatmap"
    pure [.chart "correlation_heatmap" nums]
  else pure [.info "Not enough numeric columns for correlation"]

/-- Outlier boxplot (`src/Data.py` lines 211-214): shown for a selected
numeric column, no `try/except`. -/
def outlierSection (env : RenderEnv) (sel : Selections) (nums : List String) :
    Except String (List Output) :=
  if nums.isEmpty then pure []
  else do
    env.render "outlier_box"
    pure [.chart "outlier_box" [choose nums sel.outCol]]

/-- The pure page elements up to the Descriptive Statistics header
(`src/Data.py` lines 26-82). -/
def infoOuts (df : DataFrame) : List Output :=
  [.success "Dataset Loaded Successfully",
   .pageHeader "Dataset Preview", .view "df.head",
   .pageHeader "Dataset Information",
   .metric "Rows" df.nrows, .metric "Columns" df.ncols,
   .metric "Duplicate Rows" (dupRowCount df),
   .pageHeader "Column Data Types", .view "dtype_df",
   .pageHeader "Column Classification",
   .colLists (categoricalCols df) (numericCols df),
   .pageHeader "Missing Value Analysis", .missingView (missingTable df),
   .pageHeader "Descriptive Statistics"]

/-- Descriptive statistics (`src/Data.py` lines 83-86). -/
def descOuts (nums : List String) : List Output :=
  if nums.isEmpty then [.info "No numeric columns found"] else [.view "describe"]

/-- Download section (`src/Data.py` lines 219-226): the bytes offered are
exactly `df.to_csv(index=False)`. -/
def dlOuts (df : DataFrame) : List Output :=
  [.pageHeader "Download Dataset",
   .download "cleaned_dataset.csv" "text/csv" (to_csv df)]

/-- One full render pass over the loaded frame, in source order.  The
frame is returned alongside the outputs: no stage writes to it. -/
def runPage (env : RenderEnv) (sel : Selections) (df : DataFrame) :
    Except String (DataFrame × List Output) := do
  let hist ← histSection env sel (numericCols df)
  let vc ← vcSection env sel (categoricalCols df)
  let bar := guarded (dynamicBarBody env sel (categoricalCols df) (numericCols df))
    "Error creating bar chart: "
  let pie := guarded (dynamicPieBody env sel (categoricalCols df) (numericCols df))
    "Error creating pie chart: "
  let cpie := guarded (countPieBody env sel (categoricalCols df))
    "Error creating distribution chart: "
  let heat ← heatSection env (numericCols df)
  let outlier ← outlierSection env sel (numericCols df)
  pure (df, infoOuts df ++ descOuts (numericCols df) ++ hist ++ vc ++
    bar ++ pie ++ cpie ++ heat ++ outlier ++ dlOuts df)

/-- The whole script run: `pd.read_csv` at line 25 is not wrapped in any
`try/except`, so a parse failure propagates and nothing renders. -/
def runScript (env : RenderEnv) (sel : Selections) (grid : List (List String)) :
    Except String (DataFrame × List Output) :=
  match read_csv grid with
  | .error e => .error e
  | .ok df => runPage env sel df

/-- The output list of a successful render pass. -/
def pageList (env : RenderEnv) (sel : Selections) (df : DataFrame) : List Output :=
  infoOuts df ++ descOuts (numericCols df) ++
  (if (numericCols df).isEmpty then []
    else [.chart "histogram" [choose (numericCols df) sel.numCol]]) ++
  (if (categoricalCols df).isEmpty then []
    else [.chart "value_counts_bar" [choose (categoricalCols df) sel.catCol]]) ++
  guarded (dynamicBarBody env sel (categoricalCols df) (numericCols df))
    "Error creating bar chart: " ++
  guarded (dynamicPieBody env sel (categoricalCols df) (numericCols df))
    "Error creating pie chart: " ++
  guarded (countPieBody env sel (categoricalCols df))
    "Error creating distribution chart: " ++
  (if 1 < (numericCols df).length then [.chart "correlation_heatmap" (numericCols df)]
    else [.info "Not enough numeric columns for correlation"]) ++
  (if (numericCols df).isEmpty then []
    else [.chart "outlier_box" [choose (numericCols df) sel.outCol]]) ++
  dlOuts df

theorem histSection_ok {env : RenderEnv} {sel : Selections} {nums : List String}
    {os : List Output} (h : histSection env sel nums = .ok os) :
    os = if nums.isEmpty then []
      else [.chart "histogram" [choose nums sel.numCol]] := by
  rw [histSection] at h
  by_cases hn : nums.isEmpty
  · rw [if_pos hn] at h
    rw [if_pos hn]
    simp only [pure, Except.pure, Except.ok.injEq] at h
    exact h.symm
  · rw [if_neg hn] at h
    rw [if_neg hn]
    cases hr : env.render "histogram" with
    | error e =>
      rw [hr] at h
      simp only [bind, Except.bind] at h
      exact Except.noConfusion h
    | ok u =>
      rw [hr] at h
      simp only [bind, Except.bind, pure, Except.pure, Except.ok.injEq] at h
      exact h.symm

theorem vcSection_ok {env : RenderEnv} {sel : Selections} {cats : List String}
    {os : List Output} (h : vcSection env sel cats = .ok os) :
    os = if cats.isEmpty then []
      else [.chart "value_counts_bar" [choose cats sel.catCol]] := by
  rw [vcSection] at h
  by_cases hn : cats.isEmpty
  · rw [if_pos hn] at h
    rw [if_pos hn]
    simp only [pure, Except.pure, Except.ok.injEq] at h
    exact h.symm
  · rw [if_neg hn] at h
    rw [if_neg hn]
    cases hr : env.render "value_counts_bar" with
    | error e =>
      rw [hr] at h
      simp only [bind, Except.bind] at h
      exact Except.noConfusion h
    | ok u =>
      rw [hr] at h
      simp only [bind, Except.bind, pure, Except.pure, Except.ok.injEq] at h
      exact h.symm

theorem heatSection_ok {env : RenderEnv} {nums : List String}
    {os : List Output} (h : heatSection env nums = .ok os) :
    os = if 1 < nums.length then [.chart "correlation_heatmap" nums]
      else [.info "Not enough numeric columns for correlation"] := by
  rw [heatSection] at h
  by_cases hn : 1 < nums.length
  · rw [if_pos hn] at h
    rw [if_pos hn]
    cases hr : env.render "correlation_heatmap" with
    | error e =>
      rw [hr] at h
      simp only [bind, Except.bind] at h
      exact Except.noConfusion h
    | ok u =>
      rw [hr] at h
      simp only [bind, Except.bind, pure, Except.pure, Except.ok.injEq] at h
      exact h.symm
  · rw [if_neg hn] at h
    rw [if_neg hn]
    simp only [pure, Except.pure, Except.ok.injEq] at h
    exact h.symm

theorem outlierSection_ok {env : RenderEnv} {sel : Selections} {nums : List String}
    {os : List Output} (h : outlierSection env sel nums = .ok os) :
    os = if nums.isEmpty then []
      else [.chart "outlier_box" [choose nums sel.outCol]] := by
  rw [outlierSection] at h
  by_cases hn : nums.isEmpty
  · rw [if_pos hn] at h
    rw [if_pos hn]
    simp only [pure, Except.pure, Except.ok.injEq] at h
    exact h.symm
  · rw [if_neg hn] at h
    rw [if_neg hn]
    cases hr : env.render "outlier_box" with
    | error e =>
      rw [hr] at h
      simp only [bind, Except.bind] at h
      exact Except.noConfusion h
    | ok u =>
      rw [hr] at h
      simp only [bind, Except.bind, pure, Except.pure, Except.ok.injEq] at h
      exact h.symm

/-- A successful render pass returns the frame unchanged and the canonical
output list. -/
theorem runPage_ok_shape (env : RenderEnv) (sel : Selections) (df : DataFrame)
    (p : DataFrame × List Output) (h : runPage env sel df = .ok p) :
    p = (df, pageList env sel df) := by
  rw [runPage] at h
  cases h1 : histSection env sel (numericCols df) with
  | error e =>
    rw [h1] at h
    simp only [bind, Except.bind] at h
    exact Except.noConfusion h
  | ok hist =>
    rw [h1] at h
    simp only [bind, Except.bind] at h
    cases h2 : vcSection env sel (categoricalCols df) with
    | error e =>
      rw [h2] at h
      exact Except.noConfusion h
    | ok vc =>
      rw [h2] at h
      cases h3 : heatSection env (numericCols df) with
      | error e =>
        rw [h3] at h
        exact Except.noConfusion h
      | ok heat =>
        rw [h3] at h
        cases h4 : outlierSection env sel (numericCols df) with
        | error e =>
          rw [h4] at h
          exact Except.noConfusion h
        | ok outlier =>
          rw [h4] at h
          simp only [pure, Except.pure, Except.ok.injEq] at h
          rw [← h, pageList, histSection_ok h1, vcSection_ok h2,
            heatSection_ok h3, outlierSection_ok h4]

/-- If the four unguarded chart sites render without raising, the pass
completes and returns the frame with the canonical output list. -/
theorem runPage_ok_of_renders (env : RenderEnv) (sel : Selections) (df : DataFrame)
    (h1 : env.render "histogram" = .ok ())
    (h2 : env.render "value_counts_bar" = .ok ())
    (h3 : env.render "correlation_heatmap" = .ok ())
    (h4 : env.render "outlier_box" = .ok ()) :
    runPage env sel df = .ok (df, pageList env sel df) := by
  have hh : histSection env sel (numericCols df) =
      .ok (if (numericCols df).isEmpty then []
        else [.chart "histogram" [choose (numericCols df) sel.numCol]]) := by
    rw [histSection]
    by_cases hn : (numericCols df).isEmpty
    · rw [if_pos hn, if_pos hn]; rfl
    · rw [if_neg hn, if_neg hn, h1]; rfl
  have hv : vcSection env sel (categoricalCols df) =
      .ok (if (categoricalCols df).isEmpty then []
        else [.chart "value_counts_bar" [choose (categoricalCols df) sel.catCol]]) := by
    rw [vcSection]
    by_cases hn : (categoricalCols df).isEmpty
    · rw [if_pos hn, if_pos hn]; rfl
    · rw [if_neg hn, if_neg hn, h2]; rfl
  have hc : heatSection env (numericCols df) =
      .ok (if 1 < (numericCols df).length then [.chart "correlation_heatmap" (numericCols df)]
        else [.info "Not enough numeric columns for correlation"]) := by
    rw [heatSection]
    by_cases hn : 1 < (numericCols df).length
    · rw [if_pos hn, if_pos hn, h3]; rfl
    · rw [if_neg hn, if_neg hn]; rfl
  have ho : outlierSection env sel (numericCols df) =
      .ok (if (numericCols df).isEmpty then []
        else [.chart "outlier_box" [choose (numericCols df) sel.outCol]]) := by
    rw [outlierSection]
    by_cases hn : (numericCols df).isEmpty
    · rw [if_pos hn, if_pos hn]; rfl
    · rw [if_neg hn, if_neg hn, h4]; rfl
  rw [runPage, hh, hv, hc, ho]
  rfl

/-- Environment in which every chart renders fine. -/
def okEnv : RenderEnv := ⟨fun _ => .ok ()⟩

/-- Default widget state: every selectbox on its first option. -/
def sel0 : Selections := ⟨0, 0, 0, 0, 0, 0, 0, 0, 0, 0⟩

/-- Environment in which only the (unguarded) correlation-heatmap call
raises. -/
def heatFailEnv : RenderEnv :=
  ⟨fun s => if s = "correlation_heatmap" then .error "boom" else .ok ()⟩

/-- Environment in which exactly the three `try/except`-guarded chart
sites raise, with the given messages. -/
def protFailEnv (e1 e2 e3 : String) : RenderEnv :=
  ⟨fun s =>
    if s = "dynamic_bar" then .error e1
    else if s = "dynamic_pie" then .error e2
    else if s = "count_pie" then .error e3
    else .ok ()⟩

/-- A frame with two numeric columns and no categorical column. -/
def dfNum2 : DataFrame :=
  ⟨[⟨"x", .numeric, [some (.intV 1)]⟩, ⟨"y", .numeric, [some (.intV 2)]⟩]⟩

theorem dynamicBarBody_ok {env : RenderEnv} {sel : Selections}
    {cats nums : List String} {os : List Output}
    (h : dynamicBarBody env sel cats nums = .ok os) :
    os = [.chart "dynamic_bar" [choose cats sel.barX, choose nums sel.barY]] ∨
      os = [.warning "Need both categorical and numeric columns for bar chart"] := by
  rw [dynamicBarBody] at h
  by_cases hcn : 0 < cats.length ∧ 0 < nums.length
  · rw [if_pos hcn] at h
    cases hr : env.render "dynamic_bar" with
    | error e =>
      rw [hr] at h
      simp only [bind, Except.bind] at h
      exact Except.noConfusion h
    | ok u =>
      rw [hr] at h
      simp only [bind, Except.bind, pure, Except.pure, Except.ok.injEq] at h
      exact Or.inl h.symm
  · rw [if_neg hcn] at h
    simp only [pure, Except.pure, Except.ok.injEq] at h
    exact Or.inr h.symm

theorem dynamicPieBody_ok {env : RenderEnv} {sel : Selections}
    {cats nums : List String} {os : List Output}
    (h : dynamicPieBody env sel cats nums = .ok os) :
    os = [.chart "dynamic_pie" [choose cats sel.pieCat, choose nums sel.pieNum]] ∨
      os = [.warning "Need both categorical and numeric columns for pie chart"] := by
  rw [dynamicPieBody] at h
  by_cases hcn : 0 < cats.length ∧ 0 < nums.length
  · rw [if_pos hcn] at h
    cases hr : env.render "dynamic_pie" with
    | error e =>
      rw [hr] at h
      simp only [bind, Except.bind] at h
      exact Except.noConfusion h
    | ok u =>
      rw [hr] at h
      simp only [bind, Except.bind, pure, Except.pure, Except.ok.injEq] at h
      exact Or.inl h.symm
  · rw [if_neg hcn] at h
    simp only [pure, Except.pure, Except.ok.injEq] at h
    exact Or.inr h.symm

theorem countPieBody_ok {env : RenderEnv} {sel : Selections}
    {cats : List String} {os : List Output}
    (h : countPieBody env sel cats = .ok os) :
    os = [.chart "count_pie" [choose cats sel.countCat]] ∨
      os = [.warning "No categorical columns available for distribution chart"] := by
  rw [countPieBody] at h
  by_cases hcn : 0 < cats.length
  · rw [if_pos hcn] at h
    cases hr : env.render "count_pie" with
    | error e =>
      rw [hr] at h
      simp only [bind, Except.bind] at h
      exact Except.noConfusion h
    | ok u =>
      rw [hr] at h
      simp only [bind, Except.bind, pure, Except.pure, Except.ok.injEq] at h
      exact Or.inl h.symm
  · rw [if_neg hcn] at h
    simp only [pure, Except.pure, Except.ok.injEq] at h
    exact Or.inr h.symm

theorem mem_guarded {body : Except String (List Output)} {pre : String} {x : Output}
    (hx : x ∈ guarded body pre) :
    (∃ os, body = .ok os ∧ x ∈ os) ∨ ∃ e, x = .errorMsg (pre ++ e) := by
  cases hb : body with
  | ok os =>
    rw [hb] at hx
    exact Or.inl ⟨os, rfl, hx⟩
  | error e =>
    rw [hb] at hx
    rw [show guarded (Except.error e) pre = [.errorMsg (pre ++ e)] from rfl,
      List.mem_singleton] at hx
    exact Or.inr ⟨e, hx⟩

theorem mem_guarded_dynamicBar {env : RenderEnv} {sel : Selections}
    {cats nums : List String} {pre : String} {x : Output}
    (hx : x ∈ guarded (dynamicBarBody env sel cats nums) pre) :
    x = .chart "dynamic_bar" [choose cats sel.barX, choose nums sel.barY] ∨
      x = .warning "Need both categorical and numeric columns for bar chart" ∨
      ∃ e, x = .errorMsg (pre ++ e) := by
  rcases mem_guarded hx with ⟨os, hok, hmem⟩ | ⟨e, he⟩
  · rcases dynamicBarBody_ok hok with rfl | rfl
    · rw [List.mem_singleton] at hmem
      exact Or.inl hmem
    · rw [List.mem_singleton] at hmem
      exact Or.inr (Or.inl hmem)
  · exact Or.inr (Or.inr ⟨e, he⟩)

theorem mem_guarded_dynamicPie {env : RenderEnv} {sel : Selections}
    {cats nums : List String} {pre : String} {x : Output}
    (hx : x ∈ guarded (dynamicPieBody env sel cats nums) pre) :
    x = .chart "dynamic_pie" [choose cats sel.pieCat, choose nums sel.pieNum] ∨
      x = .warning "Need both categorical and numeric columns for pie chart" ∨
      ∃ e, x = .errorMsg (pre ++ e) := by
  rcases mem_guarded hx with ⟨os, hok, hmem⟩ | ⟨e, he⟩
  · rcases dynamicPieBody_ok hok with rfl | rfl
    · rw [List.mem_singleton] at hmem
      exact Or.inl hmem
    · rw [List.mem_singleton] at hmem
      exact Or.inr (Or.inl hmem)
  · exact Or.inr (Or.inr ⟨e, he⟩)

theorem mem_guarded_countPie {env : RenderEnv} {sel : Selections}
    {cats : List String} {pre : String} {x : Output}
    (hx : x ∈ guarded (countPieBody env sel cats) pre) :
    x = .chart "count_pie" [choose cats sel.countCat] ∨
      x = .warning "No categorical columns available for distribution chart" ∨
      ∃ e, x = .errorMsg (pre ++ e) := by
  rcases mem_guarded hx with ⟨os, hok, hmem⟩ | ⟨e, he⟩
  · rcases countPieBody_ok hok with rfl | rfl
    · rw [List.mem_singleton] at hmem
      exact Or.inl hmem
    · rw [List.mem_singleton] at hmem
      exact Or.inr (Or.inl hmem)
  · exact Or.inr (Or.inr ⟨e, he⟩)

theorem mem_ite_nil_singleton {c : Prop} [Decidable c] {x y : Output} :
    (x ∈ if c then ([] : List Output) else [y]) ↔ ¬ c ∧ x = y := by
  split_ifs with hc <;> simp [hc]

theorem mem_ite_singleton_singleton {c : Prop} [Decidable c] {x y z : Output} :
    (x ∈ if c then [y] else [z]) ↔ (c ∧ x = y) ∨ (¬ c ∧ x = z) := by
  split_ifs with hc <;> simp [hc]

/-! ### C3: which chart builders catch failures -/

/-- **C3, counterexample.** Not every chart builder catches its failures:
the correlation-heatmap call (`src/Data.py` lines 198-202) sits outside any
`try/except`, so a rendering failure there aborts the whole render pass
instead of being reported inline. -/
theorem builder_failure_halts_page :
    runPage heatFailEnv sel0 dfNum2 = .error "boom" := rfl

/-- **C3, amended.** Only the Dynamic Bar, Dynamic Pie and Category
Distribution Pie builders (`src/Data.py` lines 112-141, 148-172, 179-191)
catch failures: when exactly those three sites raise, the page still
completes, and each failure surfaces as an inline `st.error` message.
(The histogram, value-count bar, heatmap and boxplot sites are unguarded,
as `builder_failure_halts_page` shows.) -/
theorem protected_builders_catch (sel : Selections) (df : DataFrame) (e1 e2 e3 : String)
    (hc : categoricalCols df ≠ []) (hn : numericCols df ≠ []) :
    ∃ outs, runPage (protFailEnv e1 e2 e3) sel df = .ok (df, outs) ∧
      .errorMsg ("Error creating bar chart: " ++ e1) ∈ outs ∧
      .errorMsg ("Error creating pie chart: " ++ e2) ∈ outs ∧
      .errorMsg ("Error creating distribution chart: " ++ e3) ∈ outs := by
  have hc' : 0 < (categoricalCols df).length := List.length_pos.mpr hc
  have hn' : 0 < (numericCols df).length := List.length_pos.mpr hn
  have hbar : guarded (dynamicBarBody (protFailEnv e1 e2 e3) sel
      (categoricalCols df) (numericCols df)) "Error creating bar chart: " =
      [.errorMsg ("Error creating bar chart: " ++ e1)] := by
    rw [dynamicBarBody, if_pos ⟨hc', hn'⟩]
    rfl
  have hpie : guarded (dynamicPieBody (protFailEnv e1 e2 e3) sel
      (categoricalCols df) (numericCols df)) "Error creating pie chart: " =
      [.errorMsg ("Error creating pie chart: " ++ e2)] := by
    rw [dynamicPieBody, if_pos ⟨hc', hn'⟩]
    rfl
  have hcpie : guarded (countPieBody (protFailEnv e1 e2 e3) sel
      (categoricalCols df)) "Error creating distribution chart: " =
      [.errorMsg ("Error creating distribution chart: " ++ e3)] := by
    rw [countPieBody, if_pos hc']
    rfl
  refine ⟨pageList (protFailEnv e1 e2 e3) sel df,
    runPage_ok_of_renders _ sel df rfl rfl rfl rfl, ?_, ?_, ?_⟩
  · rw [pageList, hbar]
    simp
  · rw [pageList, hpie]
    simp
  · rw [pageList, hcpie]
    simp

/-- Closed witness for `protected_builders_catch` on `dfMixed`. -/
theorem protected_builders_catch_witness :
    categoricalCols dfMixed ≠ [] ∧ numericCols dfMixed ≠ [] ∧
      ∃ outs, runPage (protFailEnv "E1" "E2" "E3") sel0 dfMixed = .ok (dfMixed, outs) ∧
        .errorMsg ("Error creating bar chart: " ++ "E1") ∈ outs ∧
        .errorMsg ("Error creating pie chart: " ++ "E2") ∈ outs ∧
        .errorMsg ("Error creating distribution chart: " ++ "E3") ∈ outs :=
  ⟨by decide, by decide,
    protected_builders_catch sel0 dfMixed "E1" "E2" "E3" (by decide) (by decide)⟩

/-! ### C5: the correlation heatmap guard -/

/-- **C5.** In a completed render pass, the correlation heatmap appears if
and only if the frame has more than one numeric column; with fewer, the
"Not enough numeric columns for correlation" info message appears instead
(`src/Data.py` lines 198-204). -/
theorem heatmap_iff_two_numeric (env : RenderEnv) (sel : Selections) (df : DataFrame)
    (p : DataFrame × List Output) (h : runPage env sel df = .ok p) :
    (Output.chart "correlation_heatmap" (numericCols df) ∈ p.2 ↔
      1 < (numericCols df).length) ∧
    (Output.info "Not enough numeric columns for correlation" ∈ p.2 ↔
      ¬ 1 < (numericCols df).length) := by
  rw [runPage_ok_shape env sel df p h]
  constructor
  · constructor
    · intro hm
      rw [pageList] at hm
      simp only [List.mem_append, or_assoc] at hm
      rcases hm with h' | h' | h' | h' | h' | h' | h' | h' | h' | h'
      · simp [infoOuts] at h'
      · rw [descOuts] at h'
        split_ifs at h' <;> simp at h'
      · rw [mem_ite_nil_singleton] at h'
        simp at h'
      · rw [mem_ite_nil_singleton] at h'
        simp at h'
      · rcases mem_guarded_dynamicBar h' with h' | h' | ⟨e, h'⟩ <;> simp at h'
      · rcases mem_guarded_dynamicPie h' with h' | h' | ⟨e, h'⟩ <;> simp at h'
      · rcases mem_guarded_countPie h' with h' | h' | ⟨e, h'⟩ <;> simp at h'
      · rw [mem_ite_singleton_singleton] at h'
        rcases h' with ⟨hcond, _⟩ | ⟨_, hx⟩
        · exact hcond
        · simp at hx
      · rw [mem_ite_nil_singleton] at h'
        simp at h'
      · simp [dlOuts] at h'
    · intro h3
      rw [pageList]
      simp [h3]
  · constructor
    · intro hm
      rw [pageList] at hm
      simp only [List.mem_append, or_assoc] at hm
      rcases hm with h' | h' | h' | h' | h' | h' | h' | h' | h' | h'
      · simp [infoOuts] at h'
      · rw [descOuts] at h'
        split_ifs at h' <;> simp at h'
      · rw [mem_ite_nil_singleton] at h'
        simp at h'
      · rw [mem_ite_nil_singleton] at h'
        simp at h'
      · rcases mem_guarded_dynamicBar h' with h' | h' | ⟨e, h'⟩ <;> simp at h'
      · rcases mem_guarded_dynamicPie h' with h' | h' | ⟨e, h'⟩ <;> simp at h'
      · rcases mem_guarded_countPie h' with h' | h' | ⟨e, h'⟩ <;> simp at h'
      · rw [mem_ite_singleton_singleton] at h'
        rcases h' with ⟨_, hx⟩ | ⟨hcond, _⟩
        · simp at hx
        · exact hcond
      · rw [mem_ite_nil_singleton] at h'
        simp at h'
      · simp [dlOuts] at h'
    · intro h3
      rw [pageList]
      simp [if_neg h3]

/-- Closed witness for `heatmap_iff_two_numeric` on `dfNum2` (two numeric
columns). -/
theorem heatmap_iff_two_numeric_witness :
    (Output.chart "correlation_heatmap" (numericCols dfNum2) ∈
        (dfNum2, pageList okEnv sel0 dfNum2).2 ↔ 1 < (numericCols dfNum2).length) ∧
    (Output.info "Not enough numeric columns for correlation" ∈
        (dfNum2, pageList okEnv sel0 dfNum2).2 ↔ ¬ 1 < (numericCols dfNum2).length) :=
  heatmap_iff_two_numeric okEnv sel0 dfNum2 (dfNum2, pageList okEnv sel0 dfNum2)
    (runPage_ok_of_renders okEnv sel0 dfNum2 rfl rfl rfl rfl)

/-! ### C6: charts that need a categorical column -/

/-- **C6.** With no categorical columns, a completed render pass shows the
three "skipped" warnings for the Dynamic Bar, Dynamic Pie and Category
Distribution Pie charts, and no inline error message appears anywhere on
the page (`src/Data.py` lines 113-139, 149-170, 180-189). -/
theorem no_categorical_warns (env : RenderEnv) (sel : Selections) (df : DataFrame)
    (p : DataFrame × List Output) (h : runPage env sel df = .ok p)
    (hcats : categoricalCols df = []) :
    Output.warning "Need both categorical and numeric columns for bar chart" ∈ p.2 ∧
    Output.warning "Need both categorical and numeric columns for pie chart" ∈ p.2 ∧
    Output.warning "No categorical columns available for distribution chart" ∈ p.2 ∧
    ∀ m, Output.errorMsg m ∉ p.2 := by
  rw [runPage_ok_shape env sel df p h]
  have hbar : guarded (dynamicBarBody env sel (categoricalCols df) (numericCols df))
      "Error creating bar chart: " =
      [.warning "Need both categorical and numeric columns for bar chart"] := by
    rw [hcats, dynamicBarBody, if_neg (by simp)]
    rfl
  have hpie : guarded (dynamicPieBody env sel (categoricalCols df) (numericCols df))
      "Error creating pie chart: " =
      [.warning "Need both categorical and numeric columns for pie chart"] := by
    rw [hcats, dynamicPieBody, if_neg (by simp)]
    rfl
  have hcpie : guarded (countPieBody env sel (categoricalCols df))
      "Error creating distribution chart: " =
      [.warning "No categorical columns available for distribution chart"] := by
    rw [hcats, countPieBody, if_neg (by simp)]
    rfl
  refine ⟨?_, ?_, ?_, ?_⟩
  · rw [pageList, hbar]
    simp
  · rw [pageList, hpie]
    simp
  · rw [pageList, hcpie]
    simp
  · intro m hm
    rw [pageList, hbar, hpie, hcpie] at hm
    simp only [List.mem_append, or_assoc] at hm
    rcases hm with h' | h' | h' | h' | h' | h' | h' | h' | h' | h'
    · simp [infoOuts] at h'
    · rw [descOuts] at h'
      split_ifs at h' <;> simp at h'
    · rw [mem_ite_nil_singleton] at h'
      simp at h'
    · rw [mem_ite_nil_singleton] at h'
      simp at h'
    · simp at h'
    · simp at h'
    · simp at h'
    · rw [mem_ite_singleton_singleton] at h'
      rcases h' with ⟨_, hx⟩ | ⟨_, hx⟩ <;> simp at hx
    · rw [mem_ite_nil_singleton] at h'
      simp at h'
    · simp [dlOuts] at h'

/-- Closed witness for `no_categorical_warns` on `dfNum2` (all-numeric
frame). -/
theorem no_categorical_warns_witness :
    Output.warning "Need both categorical and numeric columns for bar chart" ∈
        (dfNum2, pageList okEnv sel0 dfNum2).2 ∧
    Output.warning "Need both categorical and numeric columns for pie chart" ∈
        (dfNum2, pageList okEnv sel0 dfNum2).2 ∧
    Output.warning "No categorical columns available for distribution chart" ∈
        (dfNum2, pageList okEnv sel0 dfNum2).2 ∧
    ∀ m, Output.errorMsg m ∉ (dfNum2, pageList okEnv sel0 dfNum2).2 :=
  no_categorical_warns okEnv sel0 dfNum2 (dfNum2, pageList okEnv sel0 dfNum2)
    (runPage_ok_of_renders okEnv sel0 dfNum2 rfl rfl rfl rfl) rfl

/-! ### C7: an unparseable upload aborts the script -/

/-- **C7.** `pd.read_csv` at `src/Data.py` line 25 is wrapped in no
`try/except`: a parse failure propagates out of the script unchanged — no
page output, no inline error, no later stage. -/
theorem parse_failure_unhandled (env : RenderEnv) (sel : Selections)
    (grid : List (List String)) (e : String) (h : read_csv grid = .error e) :
    runScript env sel grid = .error e := by
  rw [runScript, h]

/-- Closed witness for `parse_failure_unhandled`: a ragged grid (a data row
longer than the header) is a tokenizing error and aborts the script. -/
theorem parse_failure_unhandled_witness :
    runScript okEnv sel0 [["a"], ["1", "2"]] =
      .error "ParserError: Error tokenizing data" :=
  parse_failure_unhandled okEnv sel0 [["a"], ["1", "2"]]
    "ParserError: Error tokenizing data" rfl

/-! ### C8: the frame is never mutated -/

/-- **C8.** A completed render pass returns the frame exactly as it was
parsed: every stage of `src/Data.py` (profiling, classification, charts,
export) only reads `df`; derived frames (`dtype_df`, `missing_df`,
`cat_data`, ...) are fresh objects. -/
theorem frame_never_mutated (env : RenderEnv) (sel : Selections) (df : DataFrame)
    (p : DataFrame × List Output) (h : runPage env sel df = .ok p) :
    p.1 = df := by
  rw [runPage_ok_shape env sel df p h]

/-- Closed witness for `frame_never_mutated` on `dfMiss`. -/
theorem frame_never_mutated_witness :
    (dfMiss, pageList okEnv sel0 dfMiss).1 = dfMiss :=
  frame_never_mutated okEnv sel0 dfMiss (dfMiss, pageList okEnv sel0 dfMiss)
    (runPage_ok_of_renders okEnv sel0 dfMiss rfl rfl rfl rfl)

/-! ### C9: the reported shape metrics -/

/-- **C9.** The Rows and Columns metrics of the Dataset Information section
report exactly `df.shape[0]` and `df.shape[1]` of the parsed frame, and no
other value is ever shown under those labels (`src/Data.py` lines 40-41). -/
theorem shape_metrics (env : RenderEnv) (sel : Selections) (df : DataFrame)
    (p : DataFrame × List Output) (h : runPage env sel df = .ok p) :
    Output.metric "Rows" df.nrows ∈ p.2 ∧
    Output.metric "Columns" df.ncols ∈ p.2 ∧
    (∀ n, Output.metric "Rows" n ∈ p.2 → n = df.nrows) ∧
    (∀ n, Output.metric "Columns" n ∈ p.2 → n = df.ncols) := by
  rw [runPage_ok_shape env sel df p h]
  refine ⟨?_, ?_, ?_, ?_⟩
  · rw [pageList]
    simp [infoOuts]
  · rw [pageList]
    simp [infoOuts]
  · intro n hm
    rw [pageList] at hm
    simp only [List.mem_append, or_assoc] at hm
    rcases hm with h' | h' | h' | h' | h' | h' | h' | h' | h' | h'
    · simp [infoOuts] at h'
      exact h'
    · rw [descOuts] at h'
      split_ifs at h' <;> simp at h'
    · rw [mem_ite_nil_singleton] at h'
      simp at h'
    · rw [mem_ite_nil_singleton] at h'
      simp at h'
    · rcases mem_guarded_dynamicBar h' with h' | h' | ⟨e, h'⟩ <;> simp at h'
    · rcases mem_guarded_dynamicPie h' with h' | h' | ⟨e, h'⟩ <;> simp at h'
    · rcases mem_guarded_countPie h' with h' | h' | ⟨e, h'⟩ <;> simp at h'
    · rw [mem_ite_singleton_singleton] at h'
      rcases h' with ⟨_, hx⟩ | ⟨_, hx⟩ <;> simp at hx
    · rw [mem_ite_nil_singleton] at h'
      simp at h'
    · simp [dlOuts] at h'
  · intro n hm
    rw [pageList] at hm
    simp only [List.mem_append, or_assoc] at hm
    rcases hm with h' | h' | h' | h' | h' | h' | h' | h' | h' | h'
    · simp [infoOuts] at h'
      exact h'
    · rw [descOuts] at h'
      split_ifs at h' <;> simp at h'
    · rw [mem_ite_nil_singleton] at h'
      simp at h'
    · rw [mem_ite_nil_singleton] at h'
      simp at h'
    · rcases mem_guarded_dynamicBar h' with h' | h' | ⟨e, h'⟩ <;> simp at h'
    · rcases mem_guarded_dynamicPie h' with h' | h' | ⟨e, h'⟩ <;> simp at h'
    · rcases mem_guarded_countPie h' with h' | h' | ⟨e, h'⟩ <;> simp at h'
    · rw [mem_ite_singleton_singleton] at h'
      rcases h' with ⟨_, hx⟩ | ⟨_, hx⟩ <;> simp at hx
    · rw [mem_ite_nil_singleton] at h'
      simp at h'
    · simp [dlOuts] at h'

/-- Closed witness for `shape_metrics` on `dfBool`. -/
theorem shape_metrics_witness :
    Output.metric "Rows" dfBool.nrows ∈ (dfBool, pageList okEnv sel0 dfBool).2 ∧
    Output.metric "Columns" dfBool.ncols ∈ (dfBool, pageList okEnv sel0 dfBool).2 ∧
    (∀ n, Output.metric "Rows" n ∈ (dfBool, pageList okEnv sel0 dfBool).2 →
      n = dfBool.nrows) ∧
    (∀ n, Output.metric "Columns" n ∈ (dfBool, pageList okEnv sel0 dfBool).2 →
      n = dfBool.ncols) :=
  shape_metrics okEnv sel0 dfBool (dfBool, pageList okEnv sel0 dfBool)
    (runPage_ok_of_renders okEnv sel0 dfBool rfl rfl rfl rfl)

end DataAnalyzer
